import Mathlib

/-!
Verification of the multilingual evaluation-analysis pipeline
(backend/app/services of the analyse-evaluation repository).

The services are shallowly embedded: texts are lists of code points
(paired with Python's `str.isalpha` valuation where the code inspects it),
floats are modelled as exact rationals, and calls into external libraries
(the `langdetect` identifier, the regex engine, the remote sentiment API,
K-Means fitting, the database commit) are passed in as explicit oracle
arguments, so every theorem quantifies over their behaviour.
-/

/-! ## Basic string machinery (Python substring / lower-casing semantics) -/

/-- True when the first code-point list is an initial segment of the second. -/
def listStartsWith : List Nat → List Nat → Bool
  | [], _ => true
  | _ :: _, [] => false
  | a :: as, b :: bs => a == b && listStartsWith as bs

/-- Python's substring test `needle in hay`, over code-point lists. -/
def containsSeq (needle : List Nat) : List Nat → Bool
  | [] => needle.isEmpty
  | c :: rest => listStartsWith needle (c :: rest) || containsSeq needle rest

/-- Code points of a Lean string literal. -/
def strCodes (s : String) : List Nat := s.toList.map Char.toNat

/-- One step of Python `str.lower`, restricted to ASCII (the only cased
characters appearing in the embedded inputs and marker/keyword tables). -/
def asciiLowerCode (n : Nat) : Nat := if 65 ≤ n ∧ n ≤ 90 then n + 32 else n

/-- Character of an analysed text: Unicode code point together with Python's
`str.isalpha` valuation for it (`str.isalpha` consults the external Unicode
category table, so it is carried as data rather than recomputed). -/
structure PyChar where
  code : Nat
  alpha : Bool
deriving DecidableEq

/-- Embedding of an ASCII string as a text; for ASCII characters Lean's
`Char.isAlpha` agrees with Python's `str.isalpha`. -/
def asciiText (s : String) : List PyChar :=
  s.toList.map (fun c => ⟨c.toNat, c.isAlpha⟩)

/-- Python whitespace test for the characters used here (`str.strip`). -/
def isPySpace (c : PyChar) : Bool := [32, 9, 10, 13, 11, 12].contains c.code

/-- Python falsiness of `text` or `text.strip()`: empty or all-whitespace. -/
def isBlank (t : List PyChar) : Bool := t.all isPySpace

/-- Lower-cased code points of a text (`text.lower()`). -/
def codesLower (t : List PyChar) : List Nat :=
  t.map (fun c => asciiLowerCode c.code)

/-! ## LanguageDetector (services/language_detector.py) -/

/-- The fixed Darija lexical marker set `LanguageDetector.DARIJA_MARKERS`
(a Python set; listed here without duplicates, so counting list members
matches counting set members). -/
def DARIJA_MARKERS : List String :=
  ["daba", "bezzaf", "mezyan", "mzyan", "dyal", "kayn", "makaynch",
   "wakha", "ach", "chno", "kifach", "fach", "wach", "smiya",
   "kheddam", "khdam", "bach", "hna", "nta", "ntina",
   "ghir", "bghit", "bgha", "machi", "yallah", "safi",
   "had chi", "dial", "rah", "ghi", "bhal", "w-", "u"]

/-- Number of Darija markers occurring as substrings of the (lowered) text:
`sum(1 for marker in cls.DARIJA_MARKERS if marker in text)`. -/
def markerCount (tl : List Nat) : Nat :=
  (DARIJA_MARKERS.filter (fun m => containsSeq (strCodes m) tl)).length

/-- `LanguageDetector._is_darija`: marker count at least 2, or at least one
regex pattern match.  The regex engine is external, so the number of matching
`DARIJA_PATTERNS` is the oracle argument `patternHits`. -/
def is_darija (patternHits : Nat) (tl : List Nat) : Bool :=
  decide (2 ≤ markerCount tl) || decide (1 ≤ patternHits)

/-- `LanguageDetector._has_darija_features`: at least one marker present. -/
def has_darija_features (tl : List Nat) : Bool :=
  decide (1 ≤ markerCount tl)

/-- `LanguageDetector._detect_by_script`: Arabic-block code points
(U+0600..U+06FF) versus Latin alphabetic code points. -/
def detect_by_script (t : List PyChar) : String :=
  let arabicChars := (t.filter (fun c => decide (0x600 ≤ c.code ∧ c.code ≤ 0x6FF))).length
  let latinChars := (t.filter (fun c => c.alpha && decide (c.code < 0x600))).length
  if latinChars < arabicChars then
    if has_darija_features (codesLower t) then "DARIJA" else "AR"
  else "FR"

/-- `LanguageDetector.detect_language`.  The statistical identifier
(`langdetect.detect`) is external: `langdetect` is `.ok code` when it returns
a language code and `.error ()` when it raises. -/
def detect_language (langdetect : Except Unit String) (patternHits : Nat)
    (t : List PyChar) : String :=
  if isBlank t then "FR"
  else if is_darija patternHits (codesLower t) then "DARIJA"
  else
    match langdetect with
    | .ok detected =>
        if detected = "fr" then "FR"
        else if detected = "ar" then
          (if has_darija_features (codesLower t) then "DARIJA" else "AR")
        else "FR"
    | .error _ => detect_by_script t

/-- `LanguageDetector.get_confidence`.  `frProb` is the probability the
external identifier reports for `fr` (`none` when it is absent or the call
raises, in which case the code defaults to 0.7). -/
def get_confidence (frProb : Option ℚ) (patternHits : Nat)
    (t : List PyChar) (lang : String) : ℚ :=
  if isBlank t then 1/2
  else if lang = "DARIJA" then
    max (3/5) (min 1 (((markerCount (codesLower t) + patternHits : ℕ) : ℚ) / 5))
  else if lang = "AR" then
    let arabicChars := (t.filter (fun c => decide (0x600 ≤ c.code ∧ c.code ≤ 0x6FF))).length
    let totalChars := (t.filter (fun c => c.alpha)).length
    if 0 < totalChars then (arabicChars : ℚ) / totalChars else 1/2
  else
    match frProb with
    | some p => p
    | none => 7/10

/-! ## SentimentAnalyzer (services/sentiment_analyzer.py) -/

/-- Result shape of `SentimentAnalyzer` methods. -/
structure SentimentResult where
  sentiment : String
  score : ℚ
  confidence : ℚ
  label : String
deriving DecidableEq

/-- The positive lexicon of `SentimentAnalyzer._rule_based_sentiment`
(a Python set, listed without duplicates). -/
def positive_words : List String :=
  ["excellent", "très bien", "parfait", "super", "génial", "bon", "bien",
   "satisfait", "satisfaisant", "intéressant", "utile", "efficace",
   "professionnel", "compétent", "clair", "dynamique", "enrichissant",
   "pertinent", "recommande",
   "ممتاز", "جيد", "مفيد", "رائع",
   "mezyan", "mzyan", "zwina", "labas", "top", "kamel"]

/-- The negative lexicon of `SentimentAnalyzer._rule_based_sentiment`. -/
def negative_words : List String :=
  ["mauvais", "nul", "décevant", "déçu", "insatisfait", "problème", "difficile",
   "compliqué", "incompréhensible", "ennuyeux", "perte de temps", "catastrophe",
   "inutile", "médiocre", "faible", "horrible", "terrible", "désastre",
   "incompétent", "mal", "pire", "vide", "superficiel", "obsolète",
   "périmé", "désengagé", "agressif", "fausse", "erreur", "pas terrible",
   "manque", "moyenne", "correct sans plus", "pas claire",
   "سيء", "سيئة", "ضعيف", "قديم", "غير", "لا", "مضيعة",
   "khayb", "khayba", "machi mezyan", "ma3lich", "khsara", "walo",
   "ma kanet", "f9ir", "katastroph"]

/-- Positive lexicon hits in the lowered text (substring containment). -/
def posHits (tl : List Nat) : Nat :=
  (positive_words.filter (fun w => containsSeq (strCodes w) tl)).length

/-- Negative lexicon hits in the lowered text (substring containment). -/
def negHits (tl : List Nat) : Nat :=
  (negative_words.filter (fun w => containsSeq (strCodes w) tl)).length

/-- `SentimentAnalyzer._rule_based_sentiment` over the code points of the
text (0.15 = 3/20, 0.1 = 1/10, 0.8 = 4/5, 0.75 = 3/4 as exact rationals). -/
def rule_based_sentiment (text : List Nat) : SentimentResult :=
  if 0 < negHits (text.map asciiLowerCode) ∧
      posHits (text.map asciiLowerCode) ≤ negHits (text.map asciiLowerCode) then
    { sentiment := "negative"
      score := -(min (4/5) (1/2 + (negHits (text.map asciiLowerCode) : ℚ) * (3/20)))
      confidence := min (3/4) (1/2 + (negHits (text.map asciiLowerCode) : ℚ) * (1/10))
      label := "negative (rule-based)" }
  else if negHits (text.map asciiLowerCode) < posHits (text.map asciiLowerCode) then
    { sentiment := "positive"
      score := min (4/5) (1/2 + (posHits (text.map asciiLowerCode) : ℚ) * (3/20))
      confidence := min (3/4) (1/2 + (posHits (text.map asciiLowerCode) : ℚ) * (1/10))
      label := "positive (rule-based)" }
  else
    { sentiment := "neutral", score := 0, confidence := 1/2,
      label := "neutral (rule-based)" }

/-- `settings.FRENCH_SENTIMENT_MODEL` (core/config.py). -/
def FRENCH_SENTIMENT_MODEL : String := "cmarkea/distilcamembert-base-sentiment"

/-- `settings.ARABIC_SENTIMENT_MODEL` (core/config.py). -/
def ARABIC_SENTIMENT_MODEL : String := "CAMeL-Lab/bert-base-arabic-camelbert-msa-sentiment"

/-- `settings.DARIJA_MODEL` (core/config.py). -/
def DARIJA_MODEL : String := "SI2M-Lab/DarijaBERT"

/-- Python `dict.get` over an association list built in insertion order. -/
def lookupStr {α : Type} (key : String) : List (String × α) → Option α
  | [] => none
  | (k, v) :: rest => if key = k then some v else lookupStr key rest

/-- The `self.models` dictionary of `SentimentAnalyzer.__init__`. -/
def sentiment_models : List (String × String) :=
  [("FR", FRENCH_SENTIMENT_MODEL), ("AR", ARABIC_SENTIMENT_MODEL),
   ("DARIJA", DARIJA_MODEL)]

/-- Model selection in `SentimentAnalyzer.analyze`:
`self.models.get(language, self.models[LanguageEnum.FRENCH.value])`. -/
def select_sentiment_model (language : String) : String :=
  (lookupStr language sentiment_models).getD FRENCH_SENTIMENT_MODEL

/-! ## TopicExtractor (services/topic_extractor.py) -/

/-- Configuration of a sklearn `CountVectorizer` as constructed by the
`TopicExtractor._get_*_vectorizer` methods. -/
structure VecConfig where
  stop_words : List String
  ngramMin : Nat
  ngramMax : Nat
  min_df : Nat
deriving DecidableEq

/-- Stop-word list of `TopicExtractor._get_french_vectorizer`. -/
def french_stop_words : List String :=
  ["le", "la", "les", "un", "une", "des", "de", "du", "à", "au",
   "et", "ou", "mais", "donc", "or", "ni", "car", "que", "qui",
   "est", "sont", "était", "ont", "a", "as", "avez", "ai",
   "ce", "cet", "cette", "ces", "mon", "ma", "mes", "ton", "ta", "tes",
   "son", "sa", "ses", "notre", "nos", "votre", "vos", "leur", "leurs",
   "je", "tu", "il", "elle", "nous", "vous", "ils", "elles",
   "pour", "par", "avec", "sans", "sur", "sous", "dans", "en",
   "tous", "tout", "toute", "toutes", "bien", "très", "plus", "moins",
   "comme", "aucun", "aucune", "beaucoup", "peu", "assez", "trop",
   "même", "aussi", "encore", "déjà", "jamais", "toujours", "souvent",
   "rien", "quelque", "plusieurs", "quelques", "certains", "certaines",
   "pas", "non", "oui", "si", "ne", "n", "y", "d"]

/-- Stop-word list of `TopicExtractor._get_arabic_vectorizer`. -/
def arabic_stop_words : List String :=
  ["في", "من", "إلى", "على", "عن", "هذا", "ذلك", "التي", "الذي",
   "هو", "هي", "أن", "كان", "لم", "لن", "قد", "لكن", "أو", "و"]

/-- Stop-word list of `TopicExtractor._get_darija_vectorizer`. -/
def darija_stop_words : List String :=
  ["dyal", "dial", "w", "wla", "ola", "bach", "bla",
   "hadi", "hadak", "hadik", "hna", "nta", "nti", "howa", "hia"]

/-- `TopicExtractor._get_french_vectorizer`: ngram_range=(1,3), min_df=2. -/
def french_vectorizer : VecConfig := ⟨french_stop_words, 1, 3, 2⟩

/-- `TopicExtractor._get_arabic_vectorizer`: ngram_range=(1,2), min_df=2. -/
def arabic_vectorizer : VecConfig := ⟨arabic_stop_words, 1, 2, 2⟩

/-- `TopicExtractor._get_darija_vectorizer`: ngram_range=(1,3), min_df=2. -/
def darija_vectorizer : VecConfig := ⟨darija_stop_words, 1, 3, 2⟩

/-- The `self._vectorizers` dictionary of `TopicExtractor.__init__`. -/
def vectorizer_table : List (String × VecConfig) :=
  [("FR", french_vectorizer), ("AR", arabic_vectorizer),
   ("DARIJA", darija_vectorizer)]

/-- Vectorizer selection in `TopicExtractor.extract_themes_single`:
`self._vectorizers.get(language, self._vectorizers[FRENCH])`. -/
def select_vectorizer (language : String) : VecConfig :=
  (lookupStr language vectorizer_table).getD french_vectorizer

/-- First-occurrence deduplication (Python dict / Counter key order). -/
def dedupStr : List String → List String
  | [] => []
  | s :: rest => s :: (dedupStr rest).filter (fun x => !(x == s))

/-- Number of occurrences of a word in a list. -/
def countStr (w : String) (l : List String) : Nat :=
  (l.filter (fun x => x == w)).length

/-- Model of sklearn `CountVectorizer.fit_transform` on the one-document
corpus `[text]` used by `extract_themes_single`.  `min_df` prunes vocabulary
terms whose document frequency — the number of corpus documents containing
the term, not the number of occurrences inside a document — is strictly
below the threshold; with a single document, every term occurring in it has
document frequency exactly 1, so the vocabulary survives only if
`min_df ≤ 1`.  When pruning empties the vocabulary sklearn raises
`ValueError`, modelled as `.error ()`.  `docTerms` abstracts the analysed
terms (tokenized, stop-word-filtered n-grams) of the single document. -/
def fit_transform_single (cfg : VecConfig) (docTerms : List String) :
    Except Unit (List (String × Nat)) :=
  let present := dedupStr docTerms
  let vocab := if cfg.min_df ≤ 1 then present else []
  if vocab.isEmpty then .error ()
  else .ok (vocab.map (fun w => (w, countStr w docTerms)))

/-- Stop words of `TopicExtractor._simple_keyword_extraction`. -/
def simple_stop_words : List String :=
  ["le", "la", "les", "un", "une", "de", "du", "et", "ou", "à", "au",
   "en", "pour"]

/-- Stable descending insertion by count (keeps earlier elements first on
equal counts, matching `Counter.most_common` tie order). -/
def insertDesc (x : String × Nat) : List (String × Nat) → List (String × Nat)
  | [] => [x]
  | y :: ys => if x.2 < y.2 then y :: insertDesc x ys else x :: y :: ys

/-- Stable insertion sort, descending by count. -/
def sortCountsDesc : List (String × Nat) → List (String × Nat)
  | [] => []
  | x :: xs => insertDesc x (sortCountsDesc xs)

/-- Python `Counter(l).most_common(n)` keys: counts in first-occurrence
order, stably sorted by decreasing count, first `n` kept. -/
def most_common (l : List String) (n : Nat) : List String :=
  (((sortCountsDesc ((dedupStr l).map (fun w => (w, countStr w l)))).map
    Prod.fst).take n)

/-- `TopicExtractor._simple_keyword_extraction`: the text's lower-cased
whitespace-split words, minus short and stop words, by frequency. -/
def simple_keyword_extraction (words : List String) (topN : Nat) :
    List String :=
  let filtered := words.filter
    (fun w => decide (3 < w.length) && !(simple_stop_words.contains w))
  most_common filtered topN

/-- `TopicExtractor.extract_themes_single`.  The text is carried in two
views: `docTerms`, the vectorizer's analysed terms for it, and `words`, its
lower-cased whitespace-split words used by the fallback (`words` is empty
exactly when the text is blank).  On vectorizer success the top `topN`
terms by count (positive counts only) are returned; on a vectorizer error
the simple frequency fallback runs. -/
def extract_themes_single (language : String) (docTerms words : List String)
    (topN : Nat) : List String :=
  if words.isEmpty then []
  else
    match fit_transform_single (select_vectorizer language) docTerms with
    | .ok vocabCounts =>
        (((sortCountsDesc vocabCounts).take topN).filter
          (fun p => decide (0 < p.2))).map Prod.fst
    | .error _ => simple_keyword_extraction words topN

/-! ## ThemeCategorizer (services/theme_categorizer.py) -/

/-- One entry of `ThemeCategorizer.CATEGORIES`: category name plus the
per-language keyword lists. -/
structure CategoryKeywords where
  name : String
  keywords_fr : List String
  keywords_ar : List String
  keywords_darija : List String
deriving DecidableEq

/-- `ThemeCategorizer.CATEGORIES` in dict insertion order. -/
def CATEGORIES : List CategoryKeywords :=
  [{ name := "Qualité de la Formation"
     keywords_fr := ["formation", "contenu", "qualité", "niveau", "profondeur",
       "structuré", "organisé", "excellent", "bon", "mauvais", "nul",
       "obsolète", "périmé", "nouveau", "clair", "théorique", "pratique",
       "exemples", "exercices", "cas"]
     keywords_ar := ["تدريب", "محتوى", "المحتوى", "جودة", "ممتاز", "جيد", "سيء",
       "قديم", "جداً", "واضح", "مفيد", "نظري", "عملي", "أمثلة"]
     keywords_darija := ["formation", "contenu", "niveau", "mezyana", "mzyana",
       "khayba", "top", "zina", "practique", "exemples"] },
   { name := "Compétences du Formateur"
     keywords_fr := ["formateur", "instructeur", "prof", "enseignant",
       "compétent", "incompétent", "préparé", "professionnel", "dynamique",
       "passionné", "engageant", "monotone", "maîtrise", "expert",
       "expérience", "pédagogique", "communication"]
     keywords_ar := ["مدرب", "المدرب", "معلم", "محترف", "مؤهل", "خبرة", "شرح",
       "يشرح", "تفسير", "مستعد", "جاهز"]
     keywords_darija := ["formateur", "prof", "instructor", "maalem",
       "professionnel", "kamel", "ma3arafch", "khatar"] },
   { name := "Organisation et Logistique"
     keywords_fr := ["logistique", "organisation", "organisé", "salle",
       "équipement", "matériel", "supports", "horaire", "temps", "durée",
       "pause", "accueil", "réservation", "planification", "coordination",
       "infrastructure"]
     keywords_ar := ["تنظيم", "قاعة", "القاعة", "مكان", "وقت", "الوقت", "ساعات",
       "مدة", "مرافق", "معدات", "صوت"]
     keywords_darija := ["organisation", "qa3a", "blassa", "waqt", "lwaqt",
       "ma9an", "organisation"] },
   { name := "Applicabilité et Utilité"
     keywords_fr := ["applicable", "applicabilité", "utile", "pratique",
       "concret", "réaliste", "pertinent", "efficace", "recommande", "valeur",
       "bénéfice", "impact", "résultat", "amélioration", "compétences",
       "apprises", "acquérir"]
     keywords_ar := ["تطبيق", "التطبيق", "عملي", "مفيد", "فائدة", "نتيجة",
       "تحسين", "مهارات", "استفدت", "استفادة", "واقعي"]
     keywords_darija := ["practique", "fayda", "nafed", "ستفدت", "3jbni",
       "mazyan", "t3allemt", "استفدت"] }]

/-- Keyword-list selection in `ThemeCategorizer.categorize_theme`; any
language outside FR/AR/DARIJA falls back to the French list. -/
def relevant_keywords (keys : CategoryKeywords) (language : String) :
    List String :=
  if language = "FR" then keys.keywords_fr
  else if language = "AR" then keys.keywords_ar
  else if language = "DARIJA" then keys.keywords_darija
  else keys.keywords_fr

/-- The match test `keyword in theme_lower or theme_lower in keyword`. -/
def keyword_matches (theme_lower : List Nat) (keyword : String) : Bool :=
  containsSeq (strCodes keyword) theme_lower ||
    containsSeq theme_lower (strCodes keyword)

/-- `ThemeCategorizer.categorize_theme`: first category (in fixed order)
with a matching keyword; default "Qualité de la Formation". -/
def categorize_theme (theme_name : List Nat) (language : String) : String :=
  let theme_lower := theme_name.map asciiLowerCode
  match CATEGORIES.find?
    (fun cat => (relevant_keywords cat language).any
      (keyword_matches theme_lower)) with
  | some cat => cat.name
  | none => "Qualité de la Formation"

/-- A persisted `Theme` row as read by `get_categorized_themes`. -/
structure ThemeEntry where
  theme_name : List Nat
  language : String
  frequency : Nat
deriving DecidableEq

/-- The four category names, in the order the code initialises them. -/
def catNames : List String :=
  ["Qualité de la Formation", "Compétences du Formateur",
   "Organisation et Logistique", "Applicabilité et Utilité"]

/-- Per-category total frequency accumulated by `get_categorized_themes`
over the retrieved theme population. -/
def category_total (themes : List ThemeEntry) (cat : String) : Nat :=
  ((themes.filter
    (fun t => categorize_theme t.theme_name t.language == cat)).map
      (fun t => t.frequency)).sum

/-- The grand total `sum(cat["total_frequency"] for cat in categories)`. -/
def grand_total (themes : List ThemeEntry) : Nat :=
  (catNames.map (category_total themes)).sum

/-- Python's `round` on an exact rational value: nearest integer, ties to
even (the code's floats are modelled as exact rationals). -/
def pyRound (x : ℚ) : ℤ :=
  if x - Rat.floor x < 1/2 then Rat.floor x
  else if 1/2 < x - Rat.floor x then Rat.floor x + 1
  else if Rat.floor x % 2 = 0 then Rat.floor x else Rat.floor x + 1

/-- Python's `round(x, 1)`: round `10·x`, divide by 10. -/
def round1 (x : ℚ) : ℚ := (pyRound (x * 10) : ℚ) / 10

/-- The percentage `get_categorized_themes` computes for one category:
`round(total_frequency / grand_total * 100, 1)` when the grand total is
positive, `0` otherwise. -/
def category_percentage (themes : List ThemeEntry) (cat : String) : ℚ :=
  if 0 < grand_total themes then
    round1 (((category_total themes cat : ℚ) / (grand_total themes : ℚ)) * 100)
  else 0

/-- Sum of the four reported category percentages. -/
def sum_percentages (themes : List ThemeEntry) : ℚ :=
  (catNames.map (category_percentage themes)).sum

/-! ## NLPService global-theme updates (services/nlp_service.py) -/

/-- A `Theme` row of the theme table: unique per (name, language). -/
structure ThemeRow where
  theme_name : String
  language : String
  frequency : Nat
deriving DecidableEq

/-- One database step shared by both update paths: find the first row with
this (name, language) key and add `inc` to its frequency, or append a fresh
row with frequency `inc`. -/
def bump (nm lg : String) (inc : Nat) : List ThemeRow → List ThemeRow
  | [] => [⟨nm, lg, inc⟩]
  | t :: ts =>
      if t.theme_name = nm ∧ t.language = lg then
        { t with frequency := t.frequency + inc } :: ts
      else t :: bump nm lg inc ts

/-- `NLPService._update_global_themes`: per theme name (skipping falsy
names), increment an existing row by 1 or create it with frequency 1. -/
def update_global_themes (themes : List String) (language : String)
    (db : List ThemeRow) : List ThemeRow :=
  themes.foldl (fun d nm => if nm = "" then d else bump nm language 1 d) db

/-- All theme names collected for one language across the batch
(`theme_counts[language]`, as a multiset). -/
def themesOfLang (themes_data : List (List String × String)) (lg : String) :
    List String :=
  (themes_data.filter (fun p => p.2 == lg)).flatMap (fun p => p.1)

/-- `NLPService._update_global_themes_batch`: coalesce the batch's themes
into per-language counters, then per (language, name) increment an existing
row by the coalesced count or create it with that count. -/
def update_global_themes_batch (themes_data : List (List String × String))
    (db : List ThemeRow) : List ThemeRow :=
  (dedupStr (themes_data.map (fun p => p.2))).foldl
    (fun d lg =>
      (dedupStr (themesOfLang themes_data lg)).foldl
        (fun d2 nm =>
          if nm = "" then d2
          else bump nm lg (countStr nm (themesOfLang themes_data lg)) d2)
        d)
    db

/-- Frequency of the first row with the given key, 0 when absent. -/
def freqOf (nm lg : String) : List ThemeRow → Nat
  | [] => 0
  | t :: ts => if t.theme_name = nm ∧ t.language = lg then t.frequency
               else freqOf nm lg ts

/-- Whether a row with the given key exists. -/
def hasKey (nm lg : String) : List ThemeRow → Bool
  | [] => false
  | t :: ts => if t.theme_name = nm ∧ t.language = lg then true
               else hasKey nm lg ts

/-! ## ClusteringService elbow heuristic (services/clustering_service.py) -/

/-- First index of the maximum of a nonempty rational list (`np.argmax`);
0 for the empty list. -/
def argmaxIdx : List ℚ → Nat
  | [] => 0
  | x :: xs =>
      let r := argmaxIdx xs
      if (xs.getD r x) ≤ x then 0 else r + 1

/-- Consecutive differences `np.diff`: `a[i+1] - a[i]`. -/
def diffsQ : List ℚ → List ℚ
  | [] => []
  | [_] => []
  | a :: b :: rest => (b - a) :: diffsQ (b :: rest)

/-- `ClusteringService._optimal_clusters_elbow`, with the K-Means fits
abstracted by the oracle `inertia k` = inertia of the k-cluster fit on the
standardized embeddings.  `n` is the number of embeddings and `maxClusters`
the configured maximum (`settings.MAX_CLUSTERS` when not overridden). -/
def optimal_clusters_elbow (maxClusters : Nat) (inertia : Nat → ℚ)
    (n : Nat) : Nat :=
  if n < 10 then min 3 n
  else
    let maxK := min maxClusters (n / 2)
    let inertias := (List.range' 2 (maxK - 1)).map inertia
    if 2 ≤ inertias.length then argmaxIdx (diffsQ inertias) + 2
    else 3

/-- Written from the specification's words (for comparison only): choose
`k = argmax(|Δinertia|) + 2`, the absolute consecutive inertia differences
replacing the signed ones the code uses. -/
def optimal_clusters_elbow_specAbs (maxClusters : Nat) (inertia : Nat → ℚ)
    (n : Nat) : Nat :=
  if n < 10 then min 3 n
  else
    let maxK := min maxClusters (n / 2)
    let inertias := (List.range' 2 (maxK - 1)).map inertia
    if 2 ≤ inertias.length then
      argmaxIdx ((diffsQ inertias).map (fun d => |d|)) + 2
    else 3

/-! ## AnalyticsService and NLPService persistence (analytics_service.py,
nlp_service.py) -/

/-- A generated `Insight` record (only the fields the persistence phase
needs; the query-driven construction of the insights is abstracted). -/
structure InsightRec where
  insight_type : String
  title : String
  confidence : ℚ
deriving DecidableEq

/-- An ORM session over insight rows: committed table plus pending adds. -/
structure SessionState where
  committed : List InsightRec
  pending : List InsightRec
deriving DecidableEq

/-- `db.commit()`: all pending rows become durable. -/
def commitSession (st : SessionState) : SessionState :=
  ⟨st.committed ++ st.pending, []⟩

/-- `db.rollback()`: all pending rows are discarded. -/
def rollbackSession (st : SessionState) : SessionState :=
  ⟨st.committed, []⟩

/-- Persistence phase of `AnalyticsService.generate_insights` (the
rule-driven construction of `insights` is abstracted as an argument;
`commitOk` is the oracle for whether `db.commit()` succeeds).  Every
insight is added to the session, commit is attempted; on failure the
session is rolled back and the exception is caught and logged — the
function then still returns the insights list normally. -/
def generate_insights_persist (commitOk : Bool) (st : SessionState)
    (insights : List InsightRec) :
    SessionState × Except String (List InsightRec) :=
  let st1 : SessionState := ⟨st.committed, st.pending ++ insights⟩
  if commitOk then (commitSession st1, .ok insights)
  else (rollbackSession st1, .ok insights)

/-- Commit phase of `NLPService.process_batch` (lines 152-158): on commit
failure the session is rolled back and the exception is re-raised. -/
def process_batch_commit (commitOk : Bool) (st : SessionState) :
    SessionState × Except String Unit :=
  if commitOk then (commitSession st, .ok ())
  else (rollbackSession st, .error "commit failed")

/-- Concrete persisted theme population (one theme per category, with
frequencies 7, 7, 7, 1979) used to exercise the percentage rounding. -/
def exampleThemes : List ThemeEntry :=
  [⟨strCodes "formation", "FR", 7⟩, ⟨strCodes "formateur", "FR", 7⟩,
   ⟨strCodes "logistique", "FR", 7⟩, ⟨strCodes "utile", "FR", 1979⟩]

/-! ## Helper lemmas -/

/-- Batteries' computable rational floor agrees with the Mathlib floor. -/
theorem ratFloor_eq_floorZ (q : ℚ) : Rat.floor q = ⌊q⌋ := by
  rw [Rat.floor_def', Rat.floor_def]

/-- Python rounding lands within half a unit of the exact value. -/
theorem pyRound_near (x : ℚ) : |(pyRound x : ℚ) - x| ≤ 1/2 := by
  unfold pyRound
  rw [ratFloor_eq_floorZ]
  have h0 : (0:ℚ) ≤ x - ⌊x⌋ := by
    have := Int.floor_le x
    linarith
  have h1 : x - ⌊x⌋ < 1 := by
    have := Int.lt_floor_add_one x
    linarith
  split_ifs with hc1 hc2 hc3 <;>
    rw [abs_le] <;> constructor <;> push_cast <;> linarith

/-- Python rounding of an exact half with odd integer part rounds up. -/
theorem pyRound_half_odd (n : ℤ) (hn : n % 2 = 1) :
    pyRound ((n : ℚ) + 1/2) = n + 1 := by
  have hfl : ⌊(n:ℚ) + 1/2⌋ = n := by
    rw [add_comm, Int.floor_add_int]
    norm_num
  unfold pyRound
  rw [ratFloor_eq_floorZ, hfl]
  have hr : (n:ℚ) + 1/2 - n = 1/2 := by ring
  rw [hr]
  norm_num [hn]

/-- `detect_language` only ever returns one of the three language codes. -/
theorem detect_language_mem (langdetect : Except Unit String)
    (patternHits : Nat) (t : List PyChar) :
    detect_language langdetect patternHits t = "FR" ∨
    detect_language langdetect patternHits t = "AR" ∨
    detect_language langdetect patternHits t = "DARIJA" := by
  unfold detect_language detect_by_script
  rcases langdetect with e | s <;> dsimp only <;> split_ifs <;> simp

/-- `get_confidence` on a blank text. -/
theorem get_confidence_blank (frProb : Option ℚ) (patternHits : Nat)
    (t : List PyChar) (lang : String) (hb : isBlank t = true) :
    get_confidence frProb patternHits t lang = 1/2 := by
  unfold get_confidence
  simp [hb]

/-- `get_confidence` in the DARIJA branch. -/
theorem get_confidence_darija (frProb : Option ℚ) (patternHits : Nat)
    (t : List PyChar) (hb : isBlank t = false) :
    get_confidence frProb patternHits t "DARIJA" =
      max (3/5) (min 1 (((markerCount (codesLower t) + patternHits : ℕ) : ℚ) / 5)) := by
  unfold get_confidence
  simp [hb]

/-- `get_confidence` in the AR branch. -/
theorem get_confidence_ar (frProb : Option ℚ) (patternHits : Nat)
    (t : List PyChar) (hb : isBlank t = false) :
    get_confidence frProb patternHits t "AR" =
      (if 0 < (t.filter (fun c => c.alpha)).length then
        ((t.filter (fun c => decide (0x600 ≤ c.code ∧ c.code ≤ 0x6FF))).length : ℚ) /
          ((t.filter (fun c => c.alpha)).length : ℚ)
      else 1/2) := by
  unfold get_confidence
  simp [hb]

/-- `get_confidence` in the French (default) branch. -/
theorem get_confidence_fr (frProb : Option ℚ) (patternHits : Nat)
    (t : List PyChar) (hb : isBlank t = false) :
    get_confidence frProb patternHits t "FR" = frProb.getD (7/10) := by
  unfold get_confidence
  rcases frProb with _ | p <;> simp [hb]

/-! ## C7 -/

/-- C7: for every non-blank text whose lower-cased form contains at least 2
of the fixed Darija lexical markers — or at least one Darija regex pattern
match — `detect_language` returns DARIJA, regardless of script and of what
the statistical identifier would have said. -/
theorem C7_markers_force_darija (langdetect : Except Unit String)
    (patternHits : Nat) (t : List PyChar) (hblank : isBlank t = false)
    (h : 2 ≤ markerCount (codesLower t) ∨ 1 ≤ patternHits) :
    detect_language langdetect patternHits t = "DARIJA" := by
  have hd : is_darija patternHits (codesLower t) = true := by
    unfold is_darija
    rcases h with h | h <;> simp [h]
  unfold detect_language
  simp [hblank, hd]

/-- Witness for C7: the Latin-script text "daba bezzaf" contains two
markers and is classified DARIJA. -/
theorem C7_markers_force_darija_witness :
    isBlank (asciiText "daba bezzaf") = false ∧
    2 ≤ markerCount (codesLower (asciiText "daba bezzaf")) ∧
    detect_language (.error ()) 0 (asciiText "daba bezzaf") = "DARIJA" :=
  ⟨by decide, by decide,
    C7_markers_force_darija _ 0 _ (by decide) (Or.inl (by decide))⟩

/-! ## C4 -/

/-- C4 is refuted on the text "aًً" — a Latin letter followed by two ARABIC
FATHA (U+064B) combining marks.  The fatha lies in the Arabic block
U+0600..U+06FF but is not alphabetic for Python's `str.isalpha`, so the
script heuristic sees 2 Arabic-block characters against 1 Latin letter and
labels the text AR (with the statistical identifier failing, as `langdetect`
does on degenerate input), while `get_confidence` then divides 2 Arabic-block
characters by only 1 alphabetic character, returning 2 > 1. -/
theorem C4_counterexample :
    detect_language (.error ()) 0
      [⟨97, true⟩, ⟨0x64B, false⟩, ⟨0x64B, false⟩] = "AR" ∧
    get_confidence none 0
      [⟨97, true⟩, ⟨0x64B, false⟩, ⟨0x64B, false⟩] "AR" = 2 ∧
    ¬(get_confidence none 0
      [⟨97, true⟩, ⟨0x64B, false⟩, ⟨0x64B, false⟩] "AR" ≤ 1) := by
  have hval : get_confidence none 0
      [⟨97, true⟩, ⟨0x64B, false⟩, ⟨0x64B, false⟩] "AR" = 2 := by
    rw [get_confidence_ar none 0 _ (by decide)]
    rw [show (([⟨97, true⟩, ⟨0x64B, false⟩, ⟨0x64B, false⟩] : List PyChar).filter
      (fun c => decide (0x600 ≤ c.code ∧ c.code ≤ 0x6FF))).length = 2 from by decide]
    rw [show (([⟨97, true⟩, ⟨0x64B, false⟩, ⟨0x64B, false⟩] : List PyChar).filter
      (fun c => c.alpha)).length = 1 from by decide]
    norm_num
  refine ⟨by decide, hval, ?_⟩
  rw [hval]
  norm_num

/-- C4 amended: `detect_language` always returns one of FR, AR, DARIJA, and
`get_confidence` on the detected label lies in [0, 1] provided that
(a) any probability the statistical identifier reports for `fr` lies in
[0, 1], and (b) when the label is AR, the text has no more Arabic-block
characters than alphabetic characters — Arabic-block non-letters such as
combining diacritics can otherwise push the AR ratio above 1. -/
theorem C4_amended (langdetect : Except Unit String) (frProb : Option ℚ)
    (patternHits : Nat) (t : List PyChar)
    (hfr : ∀ p : ℚ, frProb = some p → 0 ≤ p ∧ p ≤ 1)
    (har : detect_language langdetect patternHits t = "AR" →
      (t.filter (fun c => decide (0x600 ≤ c.code ∧ c.code ≤ 0x6FF))).length ≤
        (t.filter (fun c => c.alpha)).length) :
    (detect_language langdetect patternHits t = "FR" ∨
     detect_language langdetect patternHits t = "AR" ∨
     detect_language langdetect patternHits t = "DARIJA") ∧
    0 ≤ get_confidence frProb patternHits t
      (detect_language langdetect patternHits t) ∧
    get_confidence frProb patternHits t
      (detect_language langdetect patternHits t) ≤ 1 := by
  refine ⟨detect_language_mem langdetect patternHits t, ?_⟩
  by_cases hb : isBlank t = true
  · rw [get_confidence_blank frProb patternHits t _ hb]
    norm_num
  · have hb' : isBlank t = false := by
      revert hb
      cases isBlank t <;> simp
    rcases detect_language_mem langdetect patternHits t with hl | hl | hl <;>
      rw [hl]
    · rw [get_confidence_fr frProb patternHits t hb']
      rcases frProb with _ | p
      · norm_num
      · simpa using hfr p rfl
    · rw [get_confidence_ar frProb patternHits t hb']
      have hle := har hl
      by_cases ht : 0 < (t.filter (fun c => c.alpha)).length
      · rw [if_pos ht]
        have htQ : (0:ℚ) < ((t.filter (fun c => c.alpha)).length : ℚ) := by
          exact_mod_cast ht
        constructor
        · positivity
        · rw [div_le_one htQ]
          exact_mod_cast hle
      · rw [if_neg ht]
        norm_num
    · rw [get_confidence_darija frProb patternHits t hb']
      constructor
      · have : (0:ℚ) ≤ 3/5 := by norm_num
        exact le_trans this (le_max_left _ _)
      · refine max_le (by norm_num) ?_
        exact min_le_left _ _

/-- Witness for C4 amended: French text "bonjour" with the identifier
reporting `fr` at probability 9/10. -/
theorem C4_amended_witness :
    (detect_language (.ok "fr") 0 (asciiText "bonjour") = "FR" ∨
     detect_language (.ok "fr") 0 (asciiText "bonjour") = "AR" ∨
     detect_language (.ok "fr") 0 (asciiText "bonjour") = "DARIJA") ∧
    0 ≤ get_confidence (some (9/10)) 0 (asciiText "bonjour")
      (detect_language (.ok "fr") 0 (asciiText "bonjour")) ∧
    get_confidence (some (9/10)) 0 (asciiText "bonjour")
      (detect_language (.ok "fr") 0 (asciiText "bonjour")) ≤ 1 :=
  C4_amended (.ok "fr") (some (9/10)) 0 (asciiText "bonjour")
    (by
      intro p hp
      rw [Option.some_inj] at hp
      rw [← hp]
      norm_num)
    (fun _ => by decide)

/-! ## C6 -/

/-- C6: the rule-based sentiment fallback returns negative exactly when the
negative hit count is positive and at least the positive hit count (so equal
nonzero counts resolve to negative), with score −min(0.8, 0.5+0.15·negHits)
and confidence min(0.75, 0.5+0.1·negHits); returns positive with the
symmetric formulas exactly when the positive count strictly exceeds the
negative; otherwise (both counts zero) returns neutral with score 0 and
confidence 0.5. -/
theorem C6_rule_based_decision (text : List Nat) :
    ((rule_based_sentiment text).sentiment = "negative" ↔
      0 < negHits (text.map asciiLowerCode) ∧
        posHits (text.map asciiLowerCode) ≤ negHits (text.map asciiLowerCode)) ∧
    ((rule_based_sentiment text).sentiment = "positive" ↔
      negHits (text.map asciiLowerCode) < posHits (text.map asciiLowerCode)) ∧
    ((rule_based_sentiment text).sentiment = "neutral" ↔
      posHits (text.map asciiLowerCode) = 0 ∧
        negHits (text.map asciiLowerCode) = 0) ∧
    (0 < negHits (text.map asciiLowerCode) ∧
        posHits (text.map asciiLowerCode) ≤ negHits (text.map asciiLowerCode) →
      (rule_based_sentiment text).score =
        -(min (4/5) (1/2 + (negHits (text.map asciiLowerCode) : ℚ) * (3/20))) ∧
      (rule_based_sentiment text).confidence =
        min (3/4) (1/2 + (negHits (text.map asciiLowerCode) : ℚ) * (1/10))) ∧
    (negHits (text.map asciiLowerCode) < posHits (text.map asciiLowerCode) →
      (rule_based_sentiment text).score =
        min (4/5) (1/2 + (posHits (text.map asciiLowerCode) : ℚ) * (3/20)) ∧
      (rule_based_sentiment text).confidence =
        min (3/4) (1/2 + (posHits (text.map asciiLowerCode) : ℚ) * (1/10))) ∧
    (posHits (text.map asciiLowerCode) = 0 ∧
        negHits (text.map asciiLowerCode) = 0 →
      (rule_based_sentiment text).score = 0 ∧
      (rule_based_sentiment text).confidence = 1/2) := by
  unfold rule_based_sentiment
  set p := posHits (text.map asciiLowerCode) with hp
  set n := negHits (text.map asciiLowerCode) with hn
  split_ifs with h1 h2
  · refine ⟨⟨fun _ => h1, fun _ => rfl⟩, ?_, ?_, fun _ => ⟨rfl, rfl⟩, ?_, ?_⟩
    · constructor
      · intro hcon
        simp at hcon
      · intro hlt
        exfalso
        omega
    · constructor
      · intro hcon
        simp at hcon
      · intro hz
        exfalso
        omega
    · intro hlt
      exfalso
      omega
    · intro hz
      exfalso
      omega
  · refine ⟨?_, ⟨fun _ => h2, fun _ => rfl⟩, ?_, ?_, fun _ => ⟨rfl, rfl⟩, ?_⟩
    · constructor
      · intro hcon
        simp at hcon
      · intro hcond
        exact absurd hcond h1
    · constructor
      · intro hcon
        simp at hcon
      · intro hz
        exfalso
        omega
    · intro hcond
      exact absurd hcond h1
    · intro hz
      exfalso
      omega
  · have hz : p = 0 ∧ n = 0 := by omega
    refine ⟨?_, ?_, ⟨fun _ => hz, fun _ => rfl⟩, ?_, ?_, fun _ => ⟨rfl, rfl⟩⟩
    · constructor
      · intro hcon
        simp at hcon
      · intro hcond
        exact absurd hcond h1
    · constructor
      · intro hcon
        simp at hcon
      · intro hlt
        exact absurd hlt h2
    · intro hcond
      exact absurd hcond h1
    · intro hlt
      exact absurd hlt h2

/-- Witness for C6: the text "mauvais" has one negative hit and no positive
hit, and the fallback labels it negative. -/
theorem C6_rule_based_decision_witness :
    (rule_based_sentiment (strCodes "mauvais")).sentiment = "negative" :=
  ((C6_rule_based_decision (strCodes "mauvais")).1).mpr (by decide)

/-! ## C10 -/

/-- C10: the rule-based fallback's outputs are bounded — confidence always
lies in [1/2, 3/4], and the score is either exactly 0 (neutral) or has
absolute value in [13/20, 4/5]; in particular confidence never exceeds 0.75
and the score magnitude never exceeds 0.8. -/
theorem C10_rule_based_bounds (text : List Nat) :
    1/2 ≤ (rule_based_sentiment text).confidence ∧
    (rule_based_sentiment text).confidence ≤ 3/4 ∧
    ((rule_based_sentiment text).score = 0 ∨
      (13/20 ≤ |(rule_based_sentiment text).score| ∧
        |(rule_based_sentiment text).score| ≤ 4/5)) := by
  unfold rule_based_sentiment
  set p := posHits (text.map asciiLowerCode) with hp
  set n := negHits (text.map asciiLowerCode) with hn
  split_ifs with h1 h2
  · have hn1 : (1:ℚ) ≤ (n:ℚ) := by exact_mod_cast h1.1
    have hpos : (0:ℚ) ≤ 1/2 + (n:ℚ) * (3/20) := by positivity
    refine ⟨le_min (by norm_num) (by linarith), min_le_left _ _, Or.inr ?_⟩
    have habs : |(-(min (4/5) (1/2 + (n:ℚ) * (3/20))) : ℚ)| =
        min (4/5) (1/2 + (n:ℚ) * (3/20)) := by
      rw [abs_neg, abs_of_nonneg (le_min (by norm_num) hpos)]
    refine ⟨?_, ?_⟩
    · show (13:ℚ)/20 ≤ |(-(min (4/5) (1/2 + (n:ℚ) * (3/20))) : ℚ)|
      rw [habs]
      exact le_min (by norm_num) (by linarith)
    · show |(-(min (4/5) (1/2 + (n:ℚ) * (3/20))) : ℚ)| ≤ 4/5
      rw [habs]
      exact min_le_left _ _
  · have hp1 : (1:ℚ) ≤ (p:ℚ) := by
      have : 1 ≤ p := by omega
      exact_mod_cast this
    have hpos : (0:ℚ) ≤ 1/2 + (p:ℚ) * (3/20) := by positivity
    refine ⟨le_min (by norm_num) (by linarith), min_le_left _ _, Or.inr ?_⟩
    have habs : |(min (4/5) (1/2 + (p:ℚ) * (3/20)) : ℚ)| =
        min (4/5) (1/2 + (p:ℚ) * (3/20)) :=
      abs_of_nonneg (le_min (by norm_num) hpos)
    refine ⟨?_, ?_⟩
    · show (13:ℚ)/20 ≤ |(min (4/5) (1/2 + (p:ℚ) * (3/20)) : ℚ)|
      rw [habs]
      exact le_min (by norm_num) (by linarith)
    · show |(min (4/5) (1/2 + (p:ℚ) * (3/20)) : ℚ)| ≤ 4/5
      rw [habs]
      exact min_le_left _ _
  · exact ⟨le_refl _, by norm_num, Or.inl rfl⟩

/-! ## C9 -/

/-- C9: for every language code outside FR/AR/DARIJA the components
silently fall back to their French configuration — the sentiment model
lookup yields the French model, the vectorizer lookup yields the French
vectorizer, and theme categorization matches against the French keyword
lists (so it coincides with categorization under "FR"); no branch rejects
the unknown code. -/
theorem C9_unknown_language_french_fallback (language : String)
    (h1 : language ≠ "FR") (h2 : language ≠ "AR") (h3 : language ≠ "DARIJA") :
    select_sentiment_model language = FRENCH_SENTIMENT_MODEL ∧
    select_vectorizer language = french_vectorizer ∧
    (∀ keys : CategoryKeywords,
      relevant_keywords keys language = keys.keywords_fr) ∧
    ∀ theme_name : List Nat,
      categorize_theme theme_name language = categorize_theme theme_name "FR" := by
  have hk : ∀ keys : CategoryKeywords,
      relevant_keywords keys language = keys.keywords_fr := by
    intro keys
    unfold relevant_keywords
    rw [if_neg h1, if_neg h2, if_neg h3]
  refine ⟨?_, ?_, hk, ?_⟩
  · simp [select_sentiment_model, sentiment_models, lookupStr, h1, h2, h3]
  · simp [select_vectorizer, vectorizer_table, lookupStr, h1, h2, h3]
  · intro theme_name
    unfold categorize_theme
    dsimp only
    have hfun : (fun cat : CategoryKeywords =>
        (relevant_keywords cat language).any
          (keyword_matches (theme_name.map asciiLowerCode))) =
        (fun cat : CategoryKeywords =>
          (relevant_keywords cat "FR").any
            (keyword_matches (theme_name.map asciiLowerCode))) := by
      funext cat
      rw [hk cat]
      unfold relevant_keywords
      simp
    rw [hfun]

/-- Witness for C9 at the unknown code "EN". -/
theorem C9_unknown_language_french_fallback_witness :
    select_sentiment_model "EN" = FRENCH_SENTIMENT_MODEL ∧
    select_vectorizer "EN" = french_vectorizer ∧
    (∀ keys : CategoryKeywords,
      relevant_keywords keys "EN" = keys.keywords_fr) ∧
    ∀ theme_name : List Nat,
      categorize_theme theme_name "EN" = categorize_theme theme_name "FR" :=
  C9_unknown_language_french_fallback "EN" (by decide) (by decide) (by decide)

/-! ## C3 -/

/-- C3 is refuted on a text whose term "formation" occurs twice: with the
one-document corpus of the single-text path, every term has document
frequency 1 < min_df = 2, so the vectorizer raises (returns an error) even
for repeated terms, and the text falls through to the simple frequency
fallback — it does not surface "formation" through the vectorizer. -/
theorem C3_counterexample :
    fit_transform_single french_vectorizer
      ["formation", "formation", "utile"] = .error () ∧
    extract_themes_single "FR" ["formation", "formation", "utile"]
      ["formation", "formation", "utile"] 5 =
      simple_keyword_extraction ["formation", "formation", "utile"] 5 ∧
    extract_themes_single "FR" ["formation", "formation", "utile"]
      ["formation", "formation", "utile"] 5 = ["formation", "utile"] := by
  refine ⟨rfl, rfl, by decide⟩

/-- C3 amended: in the single-text path the vectorizer's min_df = 2 is a
document-frequency threshold; a one-document corpus gives every term
document frequency 1, so the vectorizer always errors and every text
(whatever its repeated terms) takes the simple frequency-count fallback
(the blank text returning the empty list directly, which the fallback also
yields). -/
theorem C3_amended (language : String) (docTerms words : List String)
    (topN : Nat) :
    extract_themes_single language docTerms words topN =
      if words.isEmpty then [] else simple_keyword_extraction words topN := by
  have hsel : (select_vectorizer language).min_df = 2 := by
    simp only [select_vectorizer, vectorizer_table, lookupStr]
    split_ifs <;> rfl
  have herr : fit_transform_single (select_vectorizer language) docTerms =
      .error () := by
    unfold fit_transform_single
    rw [hsel]
    simp
  unfold extract_themes_single
  rw [herr]

/-! ## C8 helper lemmas -/

/-- A `bump` never lowers any key's stored frequency. -/
theorem freqOf_bump_le (k1 k2 nm lg : String) (inc : Nat) :
    ∀ db : List ThemeRow,
      freqOf k1 k2 db ≤ freqOf k1 k2 (bump nm lg inc db) := by
  intro db
  induction db with
  | nil =>
      simp only [freqOf, bump]
      split_ifs <;> simp
  | cons t ts ih =>
      obtain ⟨tn, tl, tf⟩ := t
      simp only [bump]
      split_ifs with h
      · simp only [freqOf]
        split_ifs <;> simp
      · simp only [freqOf]
        split_ifs with h2
        · exact le_refl _
        · exact ih

/-- An absent key reads frequency 0. -/
theorem freqOf_eq_zero_of_not_hasKey (k1 k2 : String) :
    ∀ db : List ThemeRow, hasKey k1 k2 db = false → freqOf k1 k2 db = 0 := by
  intro db
  induction db with
  | nil =>
      intro _
      rfl
  | cons t ts ih =>
      obtain ⟨tn, tl, tf⟩ := t
      intro hk
      simp only [hasKey] at hk
      simp only [freqOf]
      split_ifs with h
      · rw [if_pos h] at hk
        exact absurd hk (by simp)
      · rw [if_neg h] at hk
        exact ih hk

/-- Frequency after a `bump` into a table that lacks the key. -/
theorem freqOf_bump_new (k1 k2 nm lg : String) (inc : Nat) :
    ∀ db : List ThemeRow, hasKey k1 k2 db = false →
      freqOf k1 k2 (bump nm lg inc db) =
        if nm = k1 ∧ lg = k2 then inc else 0 := by
  intro db
  induction db with
  | nil =>
      intro _
      simp [bump, freqOf]
  | cons t ts ih =>
      obtain ⟨tn, tl, tf⟩ := t
      intro hk
      simp only [hasKey] at hk
      by_cases h0 : tn = k1 ∧ tl = k2
      · rw [if_pos h0] at hk
        exact absurd hk (by simp)
      · rw [if_neg h0] at hk
        by_cases hb : tn = nm ∧ tl = lg
        · simp only [bump]
          rw [if_pos hb]
          simp only [freqOf]
          rw [if_neg h0]
          have hne : ¬(nm = k1 ∧ lg = k2) := by
            rintro ⟨rfl, rfl⟩
            exact h0 ⟨hb.1, hb.2⟩
          rw [if_neg hne]
          exact freqOf_eq_zero_of_not_hasKey k1 k2 ts hk
        · simp only [bump]
          rw [if_neg hb]
          simp only [freqOf]
          rw [if_neg h0]
          exact ih hk

/-- Key membership after a `bump`. -/
theorem hasKey_bump (k1 k2 nm lg : String) (inc : Nat) :
    ∀ db : List ThemeRow,
      hasKey k1 k2 (bump nm lg inc db) =
        (hasKey k1 k2 db || decide (nm = k1 ∧ lg = k2)) := by
  intro db
  induction db with
  | nil => simp [bump, hasKey]
  | cons t ts ih =>
      obtain ⟨tn, tl, tf⟩ := t
      simp only [bump]
      split_ifs with h
      · simp only [hasKey]
        split_ifs with h2
        · simp
        · -- head matched (nm, lg) but not (k1, k2): keys unchanged
          have hne : ¬(nm = k1 ∧ lg = k2) := by
            rintro ⟨rfl, rfl⟩
            exact h2 ⟨h.1, h.2⟩
          simp [hne]
      · simp only [hasKey]
        split_ifs with h2
        · simp
        · exact ih

/-- A `bump` with a positive increment preserves the invariant "either the
key's frequency is at least 1, or the key is absent". -/
theorem bump_pres (k1 k2 nm lg : String) (inc : Nat) (hinc : 1 ≤ inc)
    (db : List ThemeRow)
    (h : 1 ≤ freqOf k1 k2 db ∨ hasKey k1 k2 db = false) :
    1 ≤ freqOf k1 k2 (bump nm lg inc db) ∨
      hasKey k1 k2 (bump nm lg inc db) = false := by
  rcases h with h | h
  · exact Or.inl (le_trans h (freqOf_bump_le k1 k2 nm lg inc db))
  · rw [freqOf_bump_new k1 k2 nm lg inc db h]
    by_cases hk : nm = k1 ∧ lg = k2
    · exact Or.inl (by rw [if_pos hk]; exact hinc)
    · refine Or.inr ?_
      rw [hasKey_bump k1 k2 nm lg inc db, h]
      simp [hk]

/-- Folding steps that each never lower a key's frequency never lowers it. -/
theorem foldl_freq_le {α : Type} (k1 k2 : String)
    (f : List ThemeRow → α → List ThemeRow) :
    ∀ (l : List α) (db : List ThemeRow),
      (∀ d a, a ∈ l → freqOf k1 k2 d ≤ freqOf k1 k2 (f d a)) →
      freqOf k1 k2 db ≤ freqOf k1 k2 (l.foldl f db) := by
  intro l
  induction l with
  | nil =>
      intro db _
      simp
  | cons a l ih =>
      intro db hf
      simp only [List.foldl_cons]
      exact le_trans (hf db a (by simp))
        (ih (f db a) (fun d b hb => hf d b (by simp [hb])))

/-- Folding steps that each preserve the created-key invariant preserve it. -/
theorem foldl_pres {α : Type} (k1 k2 : String)
    (f : List ThemeRow → α → List ThemeRow) :
    ∀ (l : List α) (db : List ThemeRow),
      (∀ d a, a ∈ l →
        (1 ≤ freqOf k1 k2 d ∨ hasKey k1 k2 d = false) →
        (1 ≤ freqOf k1 k2 (f d a) ∨ hasKey k1 k2 (f d a) = false)) →
      (1 ≤ freqOf k1 k2 db ∨ hasKey k1 k2 db = false) →
      1 ≤ freqOf k1 k2 (l.foldl f db) ∨
        hasKey k1 k2 (l.foldl f db) = false := by
  intro l
  induction l with
  | nil =>
      intro db _ h
      exact h
  | cons a l ih =>
      intro db hf h
      simp only [List.foldl_cons]
      exact ih (f db a) (fun d b hb hd => hf d b (by simp [hb]) hd)
        (hf db a (by simp) h)

/-- Deduplication only keeps original members. -/
theorem mem_dedupStr (x : String) :
    ∀ l : List String, x ∈ dedupStr l → x ∈ l := by
  intro l
  induction l with
  | nil =>
      intro h
      simp [dedupStr] at h
  | cons s rest ih =>
      intro h
      simp only [dedupStr, List.mem_cons, List.mem_filter] at h
      rcases h with h | ⟨h, _⟩
      · simp [h]
      · simp [ih h]

/-- A member occurs at least once. -/
theorem countStr_pos (x : String) (l : List String) (hx : x ∈ l) :
    1 ≤ countStr x l := by
  unfold countStr
  have hm : x ∈ l.filter (fun y => y == x) :=
    List.mem_filter.mpr ⟨hx, by simp⟩
  exact List.length_pos_of_mem hm

/-! ## C8 -/

/-- C8: the global-theme frequency counter is monotonically non-decreasing —
both the single-evaluation update and the batched update either create a
missing theme with frequency at least 1 or add a non-negative count to an
existing theme, and neither ever lowers any theme's stored frequency. -/
theorem C8_theme_frequency_monotone (nm lg : String) (themes : List String)
    (language : String) (themes_data : List (List String × String))
    (db : List ThemeRow) :
    (freqOf nm lg db ≤ freqOf nm lg (update_global_themes themes language db) ∧
      (hasKey nm lg db = false →
        1 ≤ freqOf nm lg (update_global_themes themes language db) ∨
        hasKey nm lg (update_global_themes themes language db) = false)) ∧
    (freqOf nm lg db ≤
        freqOf nm lg (update_global_themes_batch themes_data db) ∧
      (hasKey nm lg db = false →
        1 ≤ freqOf nm lg (update_global_themes_batch themes_data db) ∨
        hasKey nm lg (update_global_themes_batch themes_data db) = false)) := by
  refine ⟨⟨?_, ?_⟩, ⟨?_, ?_⟩⟩
  · unfold update_global_themes
    apply foldl_freq_le
    intro d a _
    by_cases ha : a = ""
    · simp [ha]
    · simp only [if_neg ha]
      exact freqOf_bump_le nm lg a language 1 d
  · intro h0
    unfold update_global_themes
    apply foldl_pres
    · intro d a _ hd
      by_cases ha : a = ""
      · simpa [ha] using hd
      · simp only [if_neg ha]
        exact bump_pres nm lg a language 1 (le_refl 1) d hd
    · exact Or.inr h0
  · unfold update_global_themes_batch
    apply foldl_freq_le
    intro d lgx _
    apply foldl_freq_le
    intro d2 nmx _
    by_cases ha : nmx = ""
    · simp [ha]
    · simp only [if_neg ha]
      exact freqOf_bump_le nm lg nmx lgx _ d2
  · intro h0
    unfold update_global_themes_batch
    apply foldl_pres
    · intro d lgx _ hd
      apply foldl_pres
      · intro d2 nmx hnm hd2
        by_cases ha : nmx = ""
        · simpa [ha] using hd2
        · simp only [if_neg ha]
          refine bump_pres nm lg nmx lgx _ ?_ d2 hd2
          exact countStr_pos nmx _ (mem_dedupStr nmx _ hnm)
      · exact hd
    · exact Or.inr h0

/-- Witness for C8: inserting the theme "formation"/FR into an empty table
does not lower its frequency and creates it with frequency at least 1. -/
theorem C8_theme_frequency_monotone_witness :
    freqOf "formation" "FR" [] ≤ freqOf "formation" "FR"
      (update_global_themes ["formation"] "FR" []) ∧
    (1 ≤ freqOf "formation" "FR" (update_global_themes ["formation"] "FR" []) ∨
      hasKey "formation" "FR"
        (update_global_themes ["formation"] "FR" []) = false) :=
  ⟨(C8_theme_frequency_monotone "formation" "FR" ["formation"] "FR" [] []).1.1,
   (C8_theme_frequency_monotone "formation" "FR" ["formation"] "FR" [] []).1.2
     rfl⟩

/-! ## C1 -/

/-- C1 is refuted on inertias 100, 50, 49 for k = 2, 3, 4 (n = 10 points,
configured maximum 4): the code takes the argmax of the signed differences
[-50, -1], picking index 1 and returning k = 3, while the claim's
argmax of |Δinertia| = [50, 1] picks index 0 and would return k = 2. -/
theorem C1_counterexample :
    optimal_clusters_elbow 4
      (fun k => if k = 2 then (100:ℚ) else if k = 3 then 50 else 49) 10 = 3 ∧
    optimal_clusters_elbow_specAbs 4
      (fun k => if k = 2 then (100:ℚ) else if k = 3 then 50 else 49) 10 = 2 ∧
    (3 : Nat) ≠ 2 := by
  refine ⟨?_, ?_, by decide⟩
  · unfold optimal_clusters_elbow
    norm_num [List.range', diffsQ, argmaxIdx, List.getD]
  · unfold optimal_clusters_elbow_specAbs
    norm_num [List.range', diffsQ, argmaxIdx, List.getD]

/-- C1 amended: with n < 10 embeddings the scan is skipped and min(3, n)
returned; with n ≥ 10 and min(configuredMax, n/2) ≥ 3 the heuristic fits
every k in 2..min(configuredMax, n/2) and returns the argmax of the signed
consecutive inertia differences (the transition with the largest — least
negative — inertia change), plus 2; the absolute value in the claim does
not match the code. -/
theorem C1_elbow_amended (maxClusters n : Nat) (inertia : Nat → ℚ) :
    (n < 10 → optimal_clusters_elbow maxClusters inertia n = min 3 n) ∧
    (10 ≤ n → 3 ≤ min maxClusters (n / 2) →
      optimal_clusters_elbow maxClusters inertia n =
        argmaxIdx (diffsQ ((List.range' 2 (min maxClusters (n / 2) - 1)).map
          inertia)) + 2) := by
  constructor
  · intro h
    unfold optimal_clusters_elbow
    rw [if_pos h]
  · intro h10 h3
    unfold optimal_clusters_elbow
    rw [if_neg (by omega)]
    dsimp only
    have hlen : 2 ≤
        ((List.range' 2 (min maxClusters (n / 2) - 1)).map inertia).length := by
      rw [List.length_map, List.length_range']
      omega
    rw [if_pos hlen]

/-- Witness for C1 amended at n = 9 (small-sample branch) and n = 10 with
configured maximum 10. -/
theorem C1_elbow_amended_witness :
    optimal_clusters_elbow 10 (fun _ => (0:ℚ)) 9 = min 3 9 ∧
    optimal_clusters_elbow 10 (fun _ => (0:ℚ)) 10 =
      argmaxIdx (diffsQ ((List.range' 2 (min 10 (10 / 2) - 1)).map
        (fun _ => (0:ℚ)))) + 2 :=
  ⟨(C1_elbow_amended 10 9 (fun _ => (0:ℚ))).1 (by decide),
   (C1_elbow_amended 10 10 (fun _ => (0:ℚ))).2 (by decide) (by decide)⟩

/-! ## C2 -/

/-- C2 is refuted: with a failing commit, `generate_insights` rolls the
pending insights back (nothing is committed) but returns the insights list
normally — the result is `.ok`, not an error, so the persistence failure is
swallowed rather than propagated as a hard failure. -/
theorem C2_counterexample :
    (generate_insights_persist false ⟨[], []⟩
      [⟨"trend", "Augmentation des sentiments négatifs", 1⟩]).2 =
      .ok [⟨"trend", "Augmentation des sentiments négatifs", 1⟩] ∧
    (generate_insights_persist false ⟨[], []⟩
      [⟨"trend", "Augmentation des sentiments négatifs", 1⟩]).1.committed =
      [] :=
  ⟨rfl, rfl⟩

/-- C2 amended: a failing insight commit is rolled back atomically — the
committed table is untouched and the pending batch discarded — but the
error is caught and logged inside `generate_insights`, which still returns
the insights list normally instead of propagating a hard failure; the
batch-processing commit in `process_batch`, by contrast, re-raises the
commit error after rolling back. -/
theorem C2_amended (commitOk : Bool) (st : SessionState)
    (insights : List InsightRec) :
    (generate_insights_persist commitOk st insights).2 = .ok insights ∧
    (commitOk = false →
      (generate_insights_persist commitOk st insights).1 =
        ⟨st.committed, []⟩) ∧
    (commitOk = true →
      (generate_insights_persist commitOk st insights).1 =
        ⟨st.committed ++ (st.pending ++ insights), []⟩) ∧
    (commitOk = false →
      (process_batch_commit commitOk st).2 = .error "commit failed" ∧
      (process_batch_commit commitOk st).1 = ⟨st.committed, []⟩) := by
  cases commitOk
  · exact ⟨rfl, fun _ => rfl, fun h => absurd h (by decide),
      fun _ => ⟨rfl, rfl⟩⟩
  · exact ⟨rfl, fun h => absurd h (by decide), fun _ => rfl,
      fun h => absurd h (by decide)⟩

/-- Witness for C2 amended: a failing commit over a table holding one
previously committed insight leaves that table unchanged while
`process_batch`'s commit raises. -/
theorem C2_amended_witness :
    (generate_insights_persist false
      ⟨[⟨"signal_faible", "Attention", 1⟩], []⟩
      [⟨"tendance", "Formateur excellent", 1⟩]).1 =
      ⟨[⟨"signal_faible", "Attention", 1⟩], []⟩ ∧
    (process_batch_commit false
      ⟨[⟨"signal_faible", "Attention", 1⟩], []⟩).2 =
      .error "commit failed" :=
  ⟨(C2_amended false ⟨[⟨"signal_faible", "Attention", 1⟩], []⟩
      [⟨"tendance", "Formateur excellent", 1⟩]).2.1 rfl,
   ((C2_amended false ⟨[⟨"signal_faible", "Attention", 1⟩], []⟩
      [⟨"tendance", "Formateur excellent", 1⟩]).2.2.2 rfl).1⟩

/-! ## C5 -/

/-- Evaluation of `round1` at a value that is an exact half with odd
integer part (these are the inputs where round-half-to-even rounds up). -/
theorem round1_eval_half (a T : ℕ) (m : ℤ) (hm : m % 2 = 1)
    (hval : ((a:ℚ) / (T:ℚ)) * 100 * 10 = (m:ℚ) + 1/2) :
    round1 (((a:ℚ) / (T:ℚ)) * 100) = ((m + 1 : ℤ) : ℚ) / 10 := by
  unfold round1
  rw [hval, pyRound_half_odd m hm]

/-- Abstract core of the percentage-sum bound: four rounded tenths whose
exact values sum to 1000 sum to 100 within 2/10. -/
theorem four_round_sum (y1 y2 y3 y4 : ℚ) (hsum : y1 + y2 + y3 + y4 = 1000) :
    |((pyRound y1 : ℚ) / 10 + ((pyRound y2 : ℚ) / 10 +
      ((pyRound y3 : ℚ) / 10 + ((pyRound y4 : ℚ) / 10 + 0)))) - 100| ≤ 1/5 := by
  have b1 := pyRound_near y1
  have b2 := pyRound_near y2
  have b3 := pyRound_near y3
  have b4 := pyRound_near y4
  rw [abs_le] at b1 b2 b3 b4 ⊢
  constructor <;> linarith

/-- C5 is refuted on `exampleThemes`: the four category totals are 7, 7, 7
and 1979 of a grand total 2000, the four reported percentages are 0.4, 0.4,
0.4 and 99.0 (each exact percentage 0.35, 0.35, 0.35, 98.95 is a tie that
rounds up), and their sum 100.2 misses 100.0 by 0.2 > 0.1. -/
theorem C5_counterexample :
    0 < grand_total exampleThemes ∧
    sum_percentages exampleThemes = 501/5 ∧
    ¬(|sum_percentages exampleThemes - 100| ≤ 1/10) := by
  have h1 : category_total exampleThemes "Qualité de la Formation" = 7 := by
    decide
  have h2 : category_total exampleThemes "Compétences du Formateur" = 7 := by
    decide
  have h3 : category_total exampleThemes "Organisation et Logistique" = 7 := by
    decide
  have h4 : category_total exampleThemes "Applicabilité et Utilité" = 1979 := by
    decide
  have hg : grand_total exampleThemes = 2000 := by decide
  have hpos : 0 < grand_total exampleThemes := by rw [hg]; norm_num
  have hsum : sum_percentages exampleThemes = 501/5 := by
    unfold sum_percentages catNames
    simp only [List.map_cons, List.map_nil, List.sum_cons, List.sum_nil]
    unfold category_percentage
    rw [if_pos hpos, if_pos hpos, if_pos hpos, if_pos hpos]
    rw [h1, h2, h3, h4, hg]
    rw [round1_eval_half 7 2000 3 (by decide) (by norm_num)]
    rw [round1_eval_half 1979 2000 989 (by decide) (by norm_num)]
    norm_num
  refine ⟨hpos, hsum, ?_⟩
  rw [hsum]
  rw [show (501:ℚ)/5 - 100 = 1/5 from by norm_num]
  rw [abs_of_nonneg (by norm_num : (0:ℚ) ≤ 1/5)]
  norm_num

/-- C5 amended: whenever the grand total frequency is positive the four
reported percentages sum to 100.0 within 0.2 (the bound 0.1 claimed by the
specification can be exceeded when several exact percentages are ties of
the round-half-to-even rounding, as the counterexample shows), and every
percentage is 0 when the theme population is empty. -/
theorem C5_amended (themes : List ThemeEntry) :
    (0 < grand_total themes → |sum_percentages themes - 100| ≤ 1/5) ∧
    (themes = [] → ∀ cat : String, category_percentage themes cat = 0) := by
  constructor
  · intro h
    have hT0 : ((grand_total themes : ℕ) : ℚ) ≠ 0 := by
      have : (0:ℚ) < ((grand_total themes : ℕ) : ℚ) := by exact_mod_cast h
      exact ne_of_gt this
    have hsumN : category_total themes "Qualité de la Formation" +
        category_total themes "Compétences du Formateur" +
        category_total themes "Organisation et Logistique" +
        category_total themes "Applicabilité et Utilité" =
        grand_total themes := by
      unfold grand_total catNames
      simp only [List.map_cons, List.map_nil, List.sum_cons, List.sum_nil]
      omega
    have hsumQ : ((category_total themes "Qualité de la Formation" : ℕ) : ℚ) +
        ((category_total themes "Compétences du Formateur" : ℕ) : ℚ) +
        ((category_total themes "Organisation et Logistique" : ℕ) : ℚ) +
        ((category_total themes "Applicabilité et Utilité" : ℕ) : ℚ) =
        ((grand_total themes : ℕ) : ℚ) := by
      exact_mod_cast hsumN
    unfold sum_percentages catNames
    simp only [List.map_cons, List.map_nil, List.sum_cons, List.sum_nil]
    unfold category_percentage
    rw [if_pos h, if_pos h, if_pos h, if_pos h]
    unfold round1
    apply four_round_sum
    field_simp
    linear_combination 1000 * hsumQ
  · intro h
    subst h
    intro cat
    simp [category_percentage, grand_total, catNames, category_total]

/-- Witness for C5 amended: a single persisted theme gives percentages
summing to 100 within the bound, and the empty population reports zeros. -/
theorem C5_amended_witness :
    |sum_percentages [⟨strCodes "contenu", "FR", 3⟩] - 100| ≤ 1/5 ∧
    ∀ cat : String, category_percentage ([] : List ThemeEntry) cat = 0 :=
  ⟨(C5_amended [⟨strCodes "contenu", "FR", 3⟩]).1 (by decide),
   (C5_amended []).2 rfl⟩
